import Mathlib

/-!
Verification of the SMILES visualizer application (`app.py`).

The application is UI glue over an external cheminformatics toolkit (RDKit),
a 3D viewer component, and two HTTP endpoints.  We shallowly embed the
original glue code: the toolkit is an abstract structure of pure functions
(`RDKit` below), text produced by the program is modelled as lists of
characters, Python dictionaries as ordered association lists (Python dicts
preserve insertion order), Python floats as exact rationals, HTTP traffic as
a function from requests to outcomes, and Python exceptions as an explicit
`Except` layer distinguishing which exception classes the source catches.

Two deliberate determinizations of delegated library behaviour, both noted
in the spec: `AllChem.EmbedMolecule` (ETKDG) is randomized, so conformer
positions are an abstract function of the molecule (`RDKit.pos`), one fixed
outcome per molecule; and the spec leaves embedding failure undefined, so
the embedding is modelled as total.
-/

namespace SmilesViz

/-- Program-produced text (the `.xyz` block) as a list of characters, so that
line and token structure can be reasoned about exactly. -/
abbrev Str := List Char

/-! ### Decimal rendering, embedding Python's `f"{n}"` and `f"{x:.4f}"` -/

/-- Decimal rendering of a natural number, most significant digit first,
as Python's `f"{num_atoms}"` produces it. -/
def natToStr (n : Nat) : Str :=
  if n = 0 then ['0'] else ((Nat.digits 10 n).map Nat.digitChar).reverse

/-- Numeric value of a decimal digit character. -/
def charToDigit (c : Char) : Nat := c.toNat - 48

/-- Parse a decimal numeral: every character must be a digit. -/
def parseNat (s : Str) : Option Nat :=
  if s ≠ [] ∧ s.all (fun c => c.isDigit) = true then
    some (s.foldl (fun a c => 10 * a + charToDigit c) 0)
  else none

/-- Zero-pad a number below 10000 to four digits (the fractional field). -/
def pad4 (k : Nat) : Str :=
  List.replicate (4 - (natToStr k).length) '0' ++ natToStr k

/-- Render `z` ten-thousandths the way Python's `f"{x:.4f}"` renders
`z / 10000`: optional minus sign, integer part, a dot, exactly four digits.
`f"{x:.4f}"` first rounds the float `x` to a whole number of
ten-thousandths; that already-rounded value is what `z` stands for. -/
def fmt4 (z : Int) : Str :=
  (if z < 0 then ['-'] else []) ++
    (natToStr (z.natAbs / 10000) ++ '.' :: pad4 (z.natAbs % 10000))

/-- A token is a four-decimal-place numeral: some prefix, then a dot, then
exactly four digit characters. -/
def fourDecimal (s : Str) : Prop :=
  ∃ ip fp, s = ip ++ '.' :: fp ∧ fp.length = 4 ∧ ∀ c ∈ fp, c.isDigit = true

/-! ### The cheminformatics toolkit abstraction -/

/-- A parsed molecule.  The only structure the glue code observes is the
ordered list of atoms, each with an element symbol (`GetAtomWithIdx(i)`,
`GetSymbol()`, `GetNumAtoms()`); everything else is reached through the
opaque toolkit functions below. -/
structure Mol where
  atoms : List Str
deriving DecidableEq

/-- The delegated RDKit operations used by `app.py`, as abstract pure
functions.  Descriptor values (Python floats / ints) are exact rationals /
naturals.  `pos m i` is the conformer position of atom `i` of `m` after
`EmbedMolecule`, in units of 1/10000 — i.e. already rounded the way
`f"{x:.4f}"` rounds before printing. -/
structure RDKit where
  MolFromSmiles : String → Option Mol
  AddHs : Mol → Mol
  pos : Mol → Nat → Int × Int × Int
  MolWt : Mol → ℚ
  MolLogP : Mol → ℚ
  TPSA : Mol → ℚ
  MolMR : Mol → ℚ
  NumHDonors : Mol → Nat
  NumHAcceptors : Mol → Nat
  NumHeavyAtoms : Mol → Nat
  NumRings : Mol → Nat
  NumRotatableBonds : Mol → Nat

/-! ### `smiles_to_xyz` (app.py lines 9-25) -/

/-- The fixed comment placed on line 2 of the coordinate text. -/
def commentLine : Str := "Generated by RDKit".toList

/-- The list the loop in `smiles_to_xyz` builds, one entry per line:
atom count, comment, then one `<Symbol> <x> <y> <z>` line per atom of the
hydrogen-augmented molecule. -/
def xyzLines (lib : RDKit) (m0 : Mol) : List Str :=
  natToStr (lib.AddHs m0).atoms.length :: commentLine ::
    (lib.AddHs m0).atoms.enum.map (fun p =>
      p.2 ++ ' ' :: (fmt4 (lib.pos (lib.AddHs m0) p.1).1 ++ ' ' ::
        (fmt4 (lib.pos (lib.AddHs m0) p.1).2.1 ++ ' ' ::
          fmt4 (lib.pos (lib.AddHs m0) p.1).2.2)))

/-- `smiles_to_xyz`: parse, add hydrogens, embed, render; `"\n".join(...)`
of the line list.  Returns `none` exactly when parsing fails. -/
def smiles_to_xyz (lib : RDKit) (s : String) : Option Str :=
  match lib.MolFromSmiles s with
  | none => none
  | some m0 => some (List.intercalate ['\n'] (xyzLines lib m0))

/-- Modelled from the spec: the repository contains no coordinate-file
reader, so the round-trip property's re-parser follows the spec's format
description ("line 1 = atom count as decimal integer; line 2 = free-text
comment; lines 3..N+2 = `<ElementSymbol> <x> <y> <z>` space-separated"):
read the count from line 1, skip the comment, and take the first
space-separated token of each atom line as its element symbol. -/
def parseXyz (t : Str) : Option (Nat × List Str) :=
  match t.splitOn '\n' with
  | cnt :: _cmt :: rest =>
    match parseNat cnt with
    | some n =>
      if rest.length = n then
        some (n, rest.map (fun line => line.takeWhile (fun c => c != ' ')))
      else none
    | none => none
  | _ => none

/-! ### Descriptor and drug-likeness calculators (app.py lines 28-66) -/

/-- A value of a Python dict used for the property tables: a float, an int,
or a bool. -/
inductive PyVal where
  | num (q : ℚ)
  | int (n : Nat)
  | bool (b : Bool)
deriving DecidableEq

/-- Round to the nearest integer, ties to even — the semantics of Python's
builtin `round`.  (Floats are modelled as exact rationals, so the
binary-representation artifacts of `round` on `float` are out of scope.) -/
def roundHalfEven (q : ℚ) : Int :=
  if q - ⌊q⌋ < 1/2 then ⌊q⌋
  else if 1/2 < q - ⌊q⌋ then ⌊q⌋ + 1
  else if ⌊q⌋ % 2 = 0 then ⌊q⌋ else ⌊q⌋ + 1

/-- Python's `round(q, d)`. -/
def pyRound (d : Nat) (q : ℚ) : ℚ :=
  ((roundHalfEven (q * 10 ^ d) : ℚ)) / 10 ^ d

/-- `calculate_properties`: the ordered fixed-key dict of the nine
descriptors, with the roundings applied exactly where the source applies
them. -/
def calculate_properties (lib : RDKit) (smiles : String) :
    Option (List (String × PyVal)) :=
  match lib.MolFromSmiles smiles with
  | none => none
  | some mol => some
      [("Molecular Weight (g/mol)", .num (pyRound 1 (lib.MolWt mol))),
       ("Heavy Atoms", .int (lib.NumHeavyAtoms mol)),
       ("Rings", .int (lib.NumRings mol)),
       ("Rotatable Bonds", .int (lib.NumRotatableBonds mol)),
       ("HB Acceptors", .int (lib.NumHAcceptors mol)),
       ("HB Donors", .int (lib.NumHDonors mol)),
       ("Topo. Polar Surface Area (Å²)", .num (pyRound 2 (lib.TPSA mol))),
       ("Mol Refractivity", .num (pyRound 2 (lib.MolMR mol))),
       ("clogP", .num (pyRound 2 (lib.MolLogP mol)))]

/-- `evaluate_drug_likeness`: the Lipinski record — the `all([...])` of the
four threshold tests on the raw (unrounded) descriptor values, merged (via
`**properties`) after the boolean key. -/
def evaluate_drug_likeness (lib : RDKit) (smiles : String) :
    Option (List (String × PyVal)) :=
  match lib.MolFromSmiles smiles with
  | none => none
  | some mol => some
      [("Rule of Five Pass", .bool (decide (lib.MolWt mol ≤ 500) &&
          decide (lib.MolLogP mol ≤ 5) && decide (lib.NumHDonors mol ≤ 5) &&
          decide (lib.NumHAcceptors mol ≤ 10))),
       ("Molecular Weight", .num (lib.MolWt mol)),
       ("LogP", .num (lib.MolLogP mol)),
       ("H-bond Donors", .int (lib.NumHDonors mol)),
       ("H-bond Acceptors", .int (lib.NumHAcceptors mol))]

/-- Whether a table value is numeric (a float or an int, not a bool). -/
def PyVal.isNumeric : PyVal → Prop
  | .num _ => True
  | .int _ => True
  | .bool _ => False

/-! ### The two HTTP clients (app.py lines 69-114) -/

/-- JSON values, for response bodies. -/
inductive Json where
  | null
  | bool (b : Bool)
  | num (q : ℚ)
  | str (s : String)
  | arr (elems : List Json)
  | obj (fields : List (String × Json))

/-- The Python exception classes relevant to the source's `except` clauses:
`requests.exceptions.RequestException` and `KeyError` are caught in
`check_molecule_in_pubchem`; `TypeError`, `AttributeError` and `ValueError`
are not caught anywhere in it. -/
inductive PyExc where
  | requestException (msg : String)
  | keyError (msg : String)
  | typeError (msg : String)
  | attributeError (msg : String)
  | valueError (msg : String)
deriving DecidableEq

/-- An HTTP request the program can issue. -/
inductive HttpRequest where
  | get (url : String)
  | post (url : String) (jsonBody : List (String × String))
deriving DecidableEq

/-- What the network returns for a request: a transport failure (raised by
`requests` as a `RequestException`), or a response with a status code and a
body (`none` = body that is not valid JSON). -/
inductive HttpOutcome where
  | netError (msg : String)
  | response (status : Nat) (body : Option Json)

/-- Python truthiness of a JSON value. -/
def jsonTruthy : Json → Bool
  | .null => false
  | .bool b => b
  | .num q => decide (q ≠ 0)
  | .str s => decide (s ≠ "")
  | .arr elems => !elems.isEmpty
  | .obj fields => !fields.isEmpty

/-- Python's `key in data`: key test on a dict, membership on a list,
substring test on a string; `TypeError` on the non-iterable JSON values. -/
def pyContains (key : String) (j : Json) : Except PyExc Bool :=
  match j with
  | .obj fields => .ok (fields.any (fun kv => kv.1 == key))
  | .arr elems => .ok (elems.any (fun e =>
      match e with | .str s => s == key | _ => false))
  | .str s => .ok (decide (List.IsInfix key.toList s.toList))
  | _ => .error (.typeError "argument is not iterable")

/-- Python's `data[key]`: dict indexing (`KeyError` when absent),
`TypeError` on every other JSON value. -/
def pyGetItem (j : Json) (key : String) : Except PyExc Json :=
  match j with
  | .obj fields =>
    match fields.lookup key with
    | some v => .ok v
    | none => .error (.keyError key)
  | _ => .error (.typeError "object is not subscriptable")

/-- Python's `data.get(key)`: only dicts have `.get`; every other JSON value
raises `AttributeError`. -/
def pyDictGet (j : Json) (key : String) : Except PyExc Json :=
  match j with
  | .obj fields => .ok ((fields.lookup key).getD .null)
  | _ => .error (.attributeError "object has no attribute get")

/-- The PubChem PUG REST URL, with the SMILES embedded raw (unescaped). -/
def pubchemUrl (smiles : String) : String :=
  "https://pubchem.ncbi.nlm.nih.gov/rest/pug/compound/smiles/" ++ smiles ++
    "/cids/JSON"

/-- The request `check_molecule_in_pubchem` issues. -/
def pubchemReq (smiles : String) : HttpRequest := .get (pubchemUrl smiles)

/-- The ProTox-II endpoint used by `predict_toxicity`. -/
def toxUrl : String := "https://tox-new.charite.de/protox_II/api"

/-- `response.raise_for_status()`: raises an `HTTPError` (a
`RequestException`) for status codes 400-599. -/
def raiseForStatus (status : Nat) : Except PyExc Unit :=
  if 400 ≤ status ∧ status < 600 then
    .error (.requestException ("HTTP error " ++ toString status))
  else .ok ()

/-- The `try:` block of `check_molecule_in_pubchem`, with each step's
possible exception made explicit.  `response.json()` on a non-JSON body
raises `requests.exceptions.JSONDecodeError`, a `RequestException`
subclass. -/
def pubchemTryBody (net : HttpRequest → HttpOutcome) (smiles : String) :
    Except PyExc (Bool × String) := do
  match net (pubchemReq smiles) with
  | .netError msg => throw (.requestException msg)
  | .response status body =>
    raiseForStatus status
    match body with
    | none => throw (.requestException "invalid JSON body")
    | some data =>
      let c ← pyContains "IdentifierList" data
      if c then
        let il ← pyGetItem data "IdentifierList"
        let cid ← pyDictGet il "CID"
        if jsonTruthy cid then pure (true, "Molecule found in PubChem.")
        else pure (false, "Molecule not found in PubChem.")
      else pure (false, "Molecule not found in PubChem.")

/-- `check_molecule_in_pubchem`: the `try` body guarded by
`except requests.exceptions.RequestException` and `except KeyError`.
Any other exception class escapes to the caller. -/
def check_molecule_in_pubchem (net : HttpRequest → HttpOutcome)
    (smiles : String) : Except PyExc (Bool × String) :=
  match pubchemTryBody net smiles with
  | .ok r => .ok r
  | .error (.requestException m) => .ok (false, "API request failed: " ++ m)
  | .error (.keyError _) => .ok (false, "Unexpected API response format.")
  | .error e => .error e

/-- `predict_toxicity`: POSTs the SMILES to the ProTox-II endpoint; its
`except Exception` catches every failure, so it always returns a dict.
(Defined in `app.py` but never called by the render pass.) -/
def predict_toxicity (net : HttpRequest → HttpOutcome) (smiles : String) :
    List (String × Json) :=
  match net (.post toxUrl [("smiles", smiles)]) with
  | .netError msg => [("Error", .str ("Failed to fetch toxicity data: " ++ msg))]
  | .response status body =>
    if 400 ≤ status ∧ status < 600 then
      [("Error", .str ("Failed to fetch toxicity data: HTTP error " ++
        toString status))]
    else
      match body with
      | none => [("Error", .str "Failed to fetch toxicity data: invalid JSON body")]
      | some (.obj fields) =>
          [("LD50 (mg/kg)", (fields.lookup "ld50").getD (.str "N/A")),
           ("Toxicity Class", (fields.lookup "toxicity_class").getD (.str "N/A")),
           ("Toxicity Prediction",
             (fields.lookup "toxicity_prediction").getD (.str "N/A"))]
      | some _ => [("Error", .str "Failed to fetch toxicity data: attribute error")]

/-! ### Session state and the Visualize interaction (app.py lines 117-146) -/

/-- The two session-state fields, exactly as initialized and written by the
source: `st.session_state["smiles"]` and `st.session_state["xyz_content"]`. -/
structure SessionState where
  smiles : String
  xyz_content : Option Str
deriving DecidableEq

/-- Session start: `smiles = ""`, `xyz_content = None`. -/
def initialState : SessionState := { smiles := "", xyz_content := none }

/-- The error text shown for a failed parse. -/
def errInvalid : String := "Invalid SMILES string. Please try again."

/-- The Visualize button handler (lines 140-146): on parse failure show the
error and touch nothing; on success overwrite both fields.  Returns the new
state and the error message, if any, that the interaction surfaced. -/
def visualize (lib : RDKit) (st : SessionState) (input : String) :
    SessionState × Option String :=
  match lib.MolFromSmiles input with
  | none => (st, some errInvalid)
  | some _ =>
      ({ smiles := input, xyz_content := smiles_to_xyz lib input }, none)

/-- States the session can be in: the initial state and everything the
Visualize handler can produce from a reachable state. -/
inductive Reachable (lib : RDKit) : SessionState → Prop where
  | init : Reachable lib initialState
  | step (st : SessionState) (input : String) :
      Reachable lib st → Reachable lib (visualize lib st input).1

/-- The session invariant claimed by the spec: both fields empty/absent, or
both valid together — the SMILES parses and the coordinate text is exactly
its generated text. -/
def Inv (lib : RDKit) (st : SessionState) : Prop :=
  (st.smiles = "" ∧ st.xyz_content = none) ∨
  ((∃ m, lib.MolFromSmiles st.smiles = some m) ∧
    st.xyz_content = smiles_to_xyz lib st.smiles ∧ st.xyz_content ≠ none)

/-! ### The render pass (app.py lines 149-209) -/

/-- The three entries of `style_options`, keyed by the radio selection. -/
inductive VisStyle where
  | ballAndStick
  | stick
  | spacefill
deriving DecidableEq

/-- The py3Dmol style dict each radio option maps to. -/
def styleSpec : VisStyle → Json
  | .ballAndStick => .obj [("stick", .obj []),
      ("sphere", .obj [("radius", .num (1/2))])]
  | .stick => .obj [("stick", .obj [])]
  | .spacefill => .obj [("sphere", .obj [])]

/-- One visible widget emitted during the gated section of a run. -/
inductive UIOutput where
  | errorMsg (s : String)
  | successMsg (s : String)
  | subheader (s : String)
  | writeText (s : String)
  | image2D
  | viewer3D (xyz : Str) (style : Json)
  | downloadButton (data : Str) (filename : String) (mime : String)
  | table (rows : List (String × PyVal))

/-- What one pass through the gated section does: the widgets emitted in
order, the HTTP requests issued in order, and the uncaught exception that
aborted the pass, if any. -/
structure RenderResult where
  outputs : List UIOutput
  requests : List HttpRequest
  halted : Option PyExc

/-- The `Loaded` gate (line 149): Python truthiness of both session fields —
a non-empty SMILES string and a non-`None`, non-empty coordinate text. -/
def gate (st : SessionState) : Bool :=
  (st.smiles != "") &&
    (match st.xyz_content with
     | none => false
     | some t => !t.isEmpty)

/-- The gated section of the script (lines 149-209), run top to bottom:
2D image, 3D viewer (with the selected style), download button, descriptor
table, drug-likeness table, toxicity placeholder text, and the PubChem
check.  `Draw.MolToImage(None)` raises `ValueError`, aborting the pass; an
uncaught exception from the PubChem check aborts it after the lookup. -/
def renderPass (lib : RDKit) (net : HttpRequest → HttpOutcome)
    (st : SessionState) (style : VisStyle) : RenderResult :=
  if gate st then
    match lib.MolFromSmiles st.smiles with
    | none =>
        { outputs := [.subheader "2D Structure"], requests := [],
          halted := some (.valueError "No molecule provided") }
    | some _ =>
      let xyz := st.xyz_content.getD []
      let headOuts : List UIOutput :=
        [.subheader "2D Structure", .image2D,
         .subheader "3D Structure", .viewer3D xyz (styleSpec style),
         .downloadButton xyz "molecule.xyz" "text/plain",
         .subheader "Molecular Properties"]
      let propsOuts : List UIOutput :=
        match calculate_properties lib st.smiles with
        | some props => [.table props]
        | none => [.errorMsg "Failed to calculate molecular properties."]
      let lipOuts : List UIOutput :=
        match evaluate_drug_likeness lib st.smiles with
        | some lip =>
            [.subheader "Drug-Likeness (Lipinski's Rule of Five)", .table lip]
        | none => []
      let toxOuts : List UIOutput :=
        [.writeText "Toxicity predictions: coming soon",
         .subheader "Pubchem Check"]
      match check_molecule_in_pubchem net st.smiles with
      | .ok (true, m) =>
          { outputs := headOuts ++ propsOuts ++ lipOuts ++ toxOuts ++
              [.successMsg m],
            requests := [pubchemReq st.smiles], halted := none }
      | .ok (false, m) =>
          { outputs := headOuts ++ propsOuts ++ lipOuts ++ toxOuts ++
              [.errorMsg m],
            requests := [pubchemReq st.smiles], halted := none }
      | .error e =>
          { outputs := headOuts ++ propsOuts ++ lipOuts ++ toxOuts,
            requests := [pubchemReq st.smiles], halted := some e }
  else { outputs := [], requests := [], halted := none }

/-- Forget the one display parameter (the viewer style) of an output. -/
def eraseStyle : UIOutput → UIOutput
  | .viewer3D xyz _ => .viewer3D xyz (Json.obj [])
  | o => o

/-! ### Concrete fixtures for witnesses and counterexamples -/

/-- A concrete two-atom molecule. -/
def toyMol : Mol := ⟨[['C'], ['C']]⟩

/-- A concrete toolkit instance: parses exactly the string `"CC"`. -/
def toyLib : RDKit where
  MolFromSmiles := fun s => if s = "CC" then some toyMol else none
  AddHs := fun m => ⟨m.atoms ++ [['H'], ['H']]⟩
  pos := fun _ i => ((i : Int) * 15000 + 2345, -12345, 0)
  MolWt := fun _ => 301/10
  MolLogP := fun _ => 139/100
  TPSA := fun _ => 0
  MolMR := fun _ => 1121/100
  NumHDonors := fun _ => 0
  NumHAcceptors := fun _ => 0
  NumHeavyAtoms := fun _ => 2
  NumRings := fun _ => 0
  NumRotatableBonds := fun _ => 1

/-- A network in which PubChem answers 200 with one CID. -/
def toyNet : HttpRequest → HttpOutcome :=
  fun _ => .response 200
    (some (.obj [("IdentifierList", .obj [("CID", .arr [.num 241])])]))

/-- A network in which every endpoint answers HTTP 500. -/
def net500 : HttpRequest → HttpOutcome :=
  fun _ => .response 500 (some (.obj []))

/-- A session state that passes the Loaded gate (both fields truthy).  The
render pass reads the coordinate text only to republish it, so a one-line
stand-in keeps concrete evaluation cheap. -/
def toyState : SessionState :=
  { smiles := "CC", xyz_content := some ['4'] }

/-- The session state one successful Visualize of `"CC"` produces. -/
def loadedState : SessionState := (visualize toyLib initialState "CC").1

/-- The downloadable data carried by an output, if it is a download button. -/
def downloadData : UIOutput → Option Str
  | .downloadButton d _ _ => some d
  | _ => none

/-- The rows carried by an output, if it is a table. -/
def tableRows : UIOutput → Option (List (String × PyVal))
  | .table r => some r
  | _ => none

/-! ## Theorems -/

/-! ### Decimal-format lemmas -/

theorem charToDigit_digitChar {d : Nat} (h : d < 10) :
    charToDigit (Nat.digitChar d) = d := by
  interval_cases d <;> decide

theorem digitChar_isDigit {d : Nat} (h : d < 10) :
    (Nat.digitChar d).isDigit = true := by
  interval_cases d <;> decide

theorem isDigit_ne_newline {c : Char} (h : c.isDigit = true) : c ≠ '\n' := by
  rintro rfl; exact absurd h (by decide)

theorem isDigit_ne_space {c : Char} (h : c.isDigit = true) : c ≠ ' ' := by
  rintro rfl; exact absurd h (by decide)

theorem natToStr_all_digit (n : Nat) : ∀ c ∈ natToStr n, c.isDigit = true := by
  intro c hc
  unfold natToStr at hc
  split at hc
  · rw [List.mem_singleton] at hc; subst hc; decide
  · rw [List.mem_reverse, List.mem_map] at hc
    obtain ⟨d, hd, rfl⟩ := hc
    exact digitChar_isDigit (Nat.digits_lt_base (by norm_num) hd)

theorem natToStr_ne_nil (n : Nat) : natToStr n ≠ [] := by
  unfold natToStr
  split
  · simp
  · next h =>
    simp only [ne_eq, List.reverse_eq_nil_iff, List.map_eq_nil_iff]
    exact Nat.digits_ne_nil_iff_ne_zero.mpr h

theorem foldl_map_digitChar (L : List Nat) (h : ∀ d ∈ L, d < 10) (a : Nat) :
    (L.map Nat.digitChar).foldl (fun x c => 10 * x + charToDigit c) a =
      L.foldl (fun x d => 10 * x + d) a := by
  induction L generalizing a with
  | nil => rfl
  | cons d tl ih =>
    simp only [List.map_cons, List.foldl_cons,
      charToDigit_digitChar (h d (List.mem_cons_self d tl))]
    exact ih (fun x hx => h x (List.mem_cons_of_mem d hx)) _

theorem foldr_horner (L : List Nat) :
    L.foldr (fun d x => 10 * x + d) 0 = Nat.ofDigits 10 L := by
  induction L with
  | nil => rfl
  | cons d tl ih =>
    rw [List.foldr_cons, Nat.ofDigits_cons, ih]
    omega

/-- The decimal renderer and the decimal parser are mutually inverse. -/
theorem parseNat_natToStr (n : Nat) : parseNat (natToStr n) = some n := by
  rcases eq_or_ne n 0 with rfl | hn
  · decide
  · have hd : ∀ d ∈ Nat.digits 10 n, d < 10 :=
      fun d hd => Nat.digits_lt_base (by norm_num) hd
    unfold parseNat
    rw [if_pos ⟨natToStr_ne_nil n, List.all_eq_true.mpr
      (fun c hc => natToStr_all_digit n c hc)⟩]
    congr 1
    unfold natToStr
    rw [if_neg hn, ← List.map_reverse,
      foldl_map_digitChar _ (fun d hd' => hd d (List.mem_reverse.mp hd')),
      List.foldl_reverse, foldr_horner, Nat.ofDigits_digits]

theorem natToStr_length_le {n : Nat} (h : n < 10000) :
    (natToStr n).length ≤ 4 := by
  rcases eq_or_ne n 0 with rfl | hn
  · decide
  · unfold natToStr
    rw [if_neg hn, List.length_reverse, List.length_map,
      Nat.digits_len 10 n (by norm_num) hn]
    have : Nat.log 10 n < 4 := Nat.log_lt_of_lt_pow hn (by norm_num at h ⊢; exact h)
    omega

theorem pad4_length {k : Nat} (h : k < 10000) : (pad4 k).length = 4 := by
  unfold pad4
  rw [List.length_append, List.length_replicate]
  have := natToStr_length_le h
  omega

theorem pad4_all_digit (k : Nat) : ∀ c ∈ pad4 k, c.isDigit = true := by
  intro c hc
  rcases List.mem_append.mp hc with h | h
  · rw [List.eq_of_mem_replicate h]; decide
  · exact natToStr_all_digit k c h

theorem fmt4_fourDecimal (z : Int) : fourDecimal (fmt4 z) := by
  refine ⟨(if z < 0 then ['-'] else []) ++ natToStr (z.natAbs / 10000),
    pad4 (z.natAbs % 10000), ?_, pad4_length (Nat.mod_lt _ (by norm_num)),
    pad4_all_digit _⟩
  unfold fmt4
  rw [List.append_assoc]

theorem newline_not_mem_fmt4 (z : Int) : '\n' ∉ fmt4 z := by
  intro hc
  unfold fmt4 at hc
  rcases List.mem_append.mp hc with h | h
  · split at h <;> simp_all
  · rcases List.mem_append.mp h with h' | h'
    · exact isDigit_ne_newline (natToStr_all_digit _ _ h') rfl
    · rcases List.mem_cons.mp h' with h'' | h''
      · exact absurd h'' (by decide)
      · exact isDigit_ne_newline (pad4_all_digit _ _ h'') rfl

theorem space_not_mem_fmt4 (z : Int) : ' ' ∉ fmt4 z := by
  intro hc
  unfold fmt4 at hc
  rcases List.mem_append.mp hc with h | h
  · split at h <;> simp_all
  · rcases List.mem_append.mp h with h' | h'
    · exact isDigit_ne_space (natToStr_all_digit _ _ h') rfl
    · rcases List.mem_cons.mp h' with h'' | h''
      · exact absurd h'' (by decide)
      · exact isDigit_ne_space (pad4_all_digit _ _ h'') rfl

/-! ### Shared facts about the model -/

theorem smiles_to_xyz_eq (lib : RDKit) (s : String) (m0 : Mol)
    (h : lib.MolFromSmiles s = some m0) :
    smiles_to_xyz lib s = some (List.intercalate ['\n'] (xyzLines lib m0)) := by
  unfold smiles_to_xyz; rw [h]

/-- Every reachable session state satisfies the two-field invariant. -/
theorem reachable_inv (lib : RDKit) (st : SessionState)
    (h : Reachable lib st) : Inv lib st := by
  induction h with
  | init => exact Or.inl ⟨rfl, rfl⟩
  | step st' input h ih =>
    cases hp : lib.MolFromSmiles input with
    | none => unfold visualize; rw [hp]; exact ih
    | some m =>
      unfold Inv visualize
      rw [hp]
      exact Or.inr ⟨⟨m, hp⟩, rfl, by rw [smiles_to_xyz_eq lib input m hp]; simp⟩

/-- `pyRound d` always lands on an integer multiple of `10 ^ (-d)`. -/
theorem pyRound_int_div (d : Nat) (q : ℚ) :
    ∃ z : Int, pyRound d q = (z : ℚ) / 10 ^ d :=
  ⟨roundHalfEven (q * 10 ^ d), rfl⟩

/-! ### C1: invalid input surfaces an error and leaves the state alone -/

/-- C1: for every input string the structure parser rejects, the Visualize
handler surfaces the invalid-SMILES error message and returns the session
state (both fields) exactly as it was. -/
theorem C1_invalid_input_error_state_unchanged (lib : RDKit)
    (st : SessionState) (input : String)
    (h : lib.MolFromSmiles input = none) :
    visualize lib st input = (st, some errInvalid) := by
  unfold visualize; rw [h]

theorem C1_witness :
    toyLib.MolFromSmiles "xx" = none ∧
    visualize toyLib toyState "xx" = (toyState, some errInvalid) :=
  ⟨by decide,
    C1_invalid_input_error_state_unchanged toyLib toyState "xx" (by decide)⟩

/-! ### C2: the two session fields move together -/

/-- C2: at every reachable session state the two fields are either both
empty/absent or both valid together (the SMILES parses and the coordinate
text is its generated text), and any interaction either leaves the state
untouched or sets both fields in the same step. -/
theorem C2_session_fields_invariant (lib : RDKit) (st : SessionState)
    (input : String) (h : Reachable lib st) :
    Inv lib st ∧
      ((visualize lib st input).1 = st ∨
        ((visualize lib st input).1.smiles = input ∧
          (visualize lib st input).1.xyz_content = smiles_to_xyz lib input ∧
          smiles_to_xyz lib input ≠ none)) := by
  refine ⟨reachable_inv lib st h, ?_⟩
  cases hp : lib.MolFromSmiles input with
  | none => left; unfold visualize; rw [hp]
  | some m =>
    right
    unfold visualize
    rw [hp]
    exact ⟨rfl, rfl, by rw [smiles_to_xyz_eq lib input m hp]; simp⟩

theorem C2_witness :
    Inv toyLib initialState ∧
      ((visualize toyLib initialState "CC").1 = initialState ∨
        ((visualize toyLib initialState "CC").1.smiles = "CC" ∧
          (visualize toyLib initialState "CC").1.xyz_content =
            smiles_to_xyz toyLib "CC" ∧
          smiles_to_xyz toyLib "CC" ≠ none)) :=
  C2_session_fields_invariant toyLib initialState "CC" Reachable.init

/-! ### C3: the drug-likeness boolean is the AND of the four raw tests -/

/-- C3: for every successfully parsed SMILES, the drug-likeness record is the
fixed-key record holding the four raw (unrounded) descriptor values, and its
boolean equals the logical AND of the four threshold comparisons
`MolWt ≤ 500`, `LogP ≤ 5`, `donors ≤ 5`, `acceptors ≤ 10` on those raw
values. -/
theorem C3_lipinski_is_and_of_thresholds (lib : RDKit) (s : String)
    (m : Mol) (h : lib.MolFromSmiles s = some m) :
    evaluate_drug_likeness lib s = some
      [("Rule of Five Pass", .bool (decide (lib.MolWt m ≤ 500 ∧
          lib.MolLogP m ≤ 5 ∧ lib.NumHDonors m ≤ 5 ∧
          lib.NumHAcceptors m ≤ 10))),
       ("Molecular Weight", .num (lib.MolWt m)),
       ("LogP", .num (lib.MolLogP m)),
       ("H-bond Donors", .int (lib.NumHDonors m)),
       ("H-bond Acceptors", .int (lib.NumHAcceptors m))] := by
  unfold evaluate_drug_likeness
  rw [h]
  simp only [Option.some.injEq, List.cons.injEq, Prod.mk.injEq, and_true,
    true_and, PyVal.bool.injEq]
  simp [Bool.decide_and, Bool.and_assoc]

theorem C3_witness :
    evaluate_drug_likeness toyLib "CC" = some
      [("Rule of Five Pass", .bool (decide (toyLib.MolWt toyMol ≤ 500 ∧
          toyLib.MolLogP toyMol ≤ 5 ∧ toyLib.NumHDonors toyMol ≤ 5 ∧
          toyLib.NumHAcceptors toyMol ≤ 10))),
       ("Molecular Weight", .num (toyLib.MolWt toyMol)),
       ("LogP", .num (toyLib.MolLogP toyMol)),
       ("H-bond Donors", .int (toyLib.NumHDonors toyMol)),
       ("H-bond Acceptors", .int (toyLib.NumHAcceptors toyMol))] :=
  C3_lipinski_is_and_of_thresholds toyLib "CC" toyMol (by decide)

/-! ### C4: nine named numeric descriptors at fixed precision -/

/-- C4: for every successfully parsed SMILES, the descriptor calculator
returns exactly the nine named values in their fixed order, each numeric;
the weight is rounded to one decimal digit, the surface area, refractivity
and partition coefficient to two, and the five counts are exact integers
(so every entry lies on its stated one-or-two-digit grid). -/
theorem C4_nine_rounded_descriptors (lib : RDKit) (s : String) (m : Mol)
    (h : lib.MolFromSmiles s = some m) :
    ∃ props, calculate_properties lib s = some props ∧
      props = [("Molecular Weight (g/mol)", .num (pyRound 1 (lib.MolWt m))),
        ("Heavy Atoms", .int (lib.NumHeavyAtoms m)),
        ("Rings", .int (lib.NumRings m)),
        ("Rotatable Bonds", .int (lib.NumRotatableBonds m)),
        ("HB Acceptors", .int (lib.NumHAcceptors m)),
        ("HB Donors", .int (lib.NumHDonors m)),
        ("Topo. Polar Surface Area (Å²)", .num (pyRound 2 (lib.TPSA m))),
        ("Mol Refractivity", .num (pyRound 2 (lib.MolMR m))),
        ("clogP", .num (pyRound 2 (lib.MolLogP m)))] ∧
      props.length = 9 ∧
      props.map Prod.fst = ["Molecular Weight (g/mol)", "Heavy Atoms",
        "Rings", "Rotatable Bonds", "HB Acceptors", "HB Donors",
        "Topo. Polar Surface Area (Å²)", "Mol Refractivity", "clogP"] ∧
      (∀ kv ∈ props, kv.2.isNumeric) ∧
      (∃ z : Int, pyRound 1 (lib.MolWt m) = (z : ℚ) / 10 ^ (1 : Nat)) ∧
      (∃ z : Int, pyRound 2 (lib.TPSA m) = (z : ℚ) / 10 ^ (2 : Nat)) ∧
      (∃ z : Int, pyRound 2 (lib.MolMR m) = (z : ℚ) / 10 ^ (2 : Nat)) ∧
      (∃ z : Int, pyRound 2 (lib.MolLogP m) = (z : ℚ) / 10 ^ (2 : Nat)) := by
  refine ⟨_, by unfold calculate_properties; rw [h], rfl, rfl, rfl, ?_,
    pyRound_int_div 1 _, pyRound_int_div 2 _, pyRound_int_div 2 _,
    pyRound_int_div 2 _⟩
  intro kv hkv
  fin_cases hkv <;> trivial

theorem C4_witness :
    ∃ props, calculate_properties toyLib "CC" = some props ∧
      props = [("Molecular Weight (g/mol)",
          .num (pyRound 1 (toyLib.MolWt toyMol))),
        ("Heavy Atoms", .int (toyLib.NumHeavyAtoms toyMol)),
        ("Rings", .int (toyLib.NumRings toyMol)),
        ("Rotatable Bonds", .int (toyLib.NumRotatableBonds toyMol)),
        ("HB Acceptors", .int (toyLib.NumHAcceptors toyMol)),
        ("HB Donors", .int (toyLib.NumHDonors toyMol)),
        ("Topo. Polar Surface Area (Å²)", .num (pyRound 2 (toyLib.TPSA toyMol))),
        ("Mol Refractivity", .num (pyRound 2 (toyLib.MolMR toyMol))),
        ("clogP", .num (pyRound 2 (toyLib.MolLogP toyMol)))] ∧
      props.length = 9 ∧
      props.map Prod.fst = ["Molecular Weight (g/mol)", "Heavy Atoms",
        "Rings", "Rotatable Bonds", "HB Acceptors", "HB Donors",
        "Topo. Polar Surface Area (Å²)", "Mol Refractivity", "clogP"] ∧
      (∀ kv ∈ props, kv.2.isNumeric) ∧
      (∃ z : Int, pyRound 1 (toyLib.MolWt toyMol) = (z : ℚ) / 10 ^ (1 : Nat)) ∧
      (∃ z : Int, pyRound 2 (toyLib.TPSA toyMol) = (z : ℚ) / 10 ^ (2 : Nat)) ∧
      (∃ z : Int, pyRound 2 (toyLib.MolMR toyMol) = (z : ℚ) / 10 ^ (2 : Nat)) ∧
      (∃ z : Int, pyRound 2 (toyLib.MolLogP toyMol) = (z : ℚ) / 10 ^ (2 : Nat)) :=
  C4_nine_rounded_descriptors toyLib "CC" toyMol (by decide)

/-! ### C5 and C6: structure of the generated coordinate text -/

theorem mem_snd_of_mem_enum {α : Type} {p : Nat × α} {l : List α}
    (hp : p ∈ l.enum) : p.2 ∈ l := by
  have := List.mem_map_of_mem Prod.snd hp
  rwa [List.enum_map_snd] at this

theorem newline_not_mem_commentLine : '\n' ∉ commentLine := by decide

/-- No line the generator emits contains a newline, provided no element
symbol does. -/
theorem xyzLines_no_newline (lib : RDKit) (m0 : Mol)
    (hsym : ∀ a ∈ (lib.AddHs m0).atoms, '\n' ∉ a) :
    ∀ l ∈ xyzLines lib m0, '\n' ∉ l := by
  intro l hl
  unfold xyzLines at hl
  rcases List.mem_cons.mp hl with rfl | hl'
  · intro hc
    exact isDigit_ne_newline (natToStr_all_digit _ _ hc) rfl
  rcases List.mem_cons.mp hl' with rfl | hl''
  · exact newline_not_mem_commentLine
  obtain ⟨p, hp', rfl⟩ := List.mem_map.mp hl''
  intro hc
  rcases List.mem_append.mp hc with h | h
  · exact hsym p.2 (mem_snd_of_mem_enum hp') h
  rcases List.mem_cons.mp h with h' | h'
  · exact absurd h' (by decide)
  rcases List.mem_append.mp h' with h'' | h''
  · exact newline_not_mem_fmt4 _ h''
  rcases List.mem_cons.mp h'' with h3 | h3
  · exact absurd h3 (by decide)
  rcases List.mem_append.mp h3 with h4 | h4
  · exact newline_not_mem_fmt4 _ h4
  rcases List.mem_cons.mp h4 with h5 | h5
  · exact absurd h5 (by decide)
  · exact newline_not_mem_fmt4 _ h5

theorem xyzLines_ne_nil (lib : RDKit) (m0 : Mol) : xyzLines lib m0 ≠ [] := by
  unfold xyzLines; exact List.cons_ne_nil _ _

/-- Splitting the joined text on newlines recovers exactly the line list. -/
theorem xyz_text_splitOn (lib : RDKit) (m0 : Mol)
    (hsym : ∀ a ∈ (lib.AddHs m0).atoms, '\n' ∉ a) :
    (List.intercalate ['\n'] (xyzLines lib m0)).splitOn '\n' =
      xyzLines lib m0 :=
  List.splitOn_intercalate (xyzLines lib m0) '\n'
    (xyzLines_no_newline lib m0 hsym) (xyzLines_ne_nil lib m0)

/-- C5: for every SMILES the parser accepts, the generated coordinate text
splits on newlines into: line 1 the atom count as a decimal numeral
(re-parsing it as a decimal integer gives the count back), line 2 the fixed
comment, and then exactly one line per atom, each consisting of the atom's
element symbol followed by three four-decimal-place coordinates, space
separated.  (Element symbols never contain a newline; that fact about the
delegated library is the `hsym` hypothesis.) -/
theorem C5_xyz_text_format (lib : RDKit) (s : String) (m0 : Mol)
    (hp : lib.MolFromSmiles s = some m0)
    (hsym : ∀ a ∈ (lib.AddHs m0).atoms, '\n' ∉ a) :
    ∃ txt body, smiles_to_xyz lib s = some txt ∧
      txt.splitOn '\n' =
        natToStr (lib.AddHs m0).atoms.length :: commentLine :: body ∧
      parseNat (natToStr (lib.AddHs m0).atoms.length) =
        some (lib.AddHs m0).atoms.length ∧
      body.length = (lib.AddHs m0).atoms.length ∧
      ∀ line ∈ body, ∃ sym x y z, sym ∈ (lib.AddHs m0).atoms ∧
        line = sym ++ ' ' :: (fmt4 x ++ ' ' :: (fmt4 y ++ ' ' :: fmt4 z)) ∧
        fourDecimal (fmt4 x) ∧ fourDecimal (fmt4 y) ∧ fourDecimal (fmt4 z) := by
  refine ⟨List.intercalate ['\n'] (xyzLines lib m0),
    (lib.AddHs m0).atoms.enum.map (fun p =>
      p.2 ++ ' ' :: (fmt4 (lib.pos (lib.AddHs m0) p.1).1 ++ ' ' ::
        (fmt4 (lib.pos (lib.AddHs m0) p.1).2.1 ++ ' ' ::
          fmt4 (lib.pos (lib.AddHs m0) p.1).2.2))),
    smiles_to_xyz_eq lib s m0 hp, ?_, parseNat_natToStr _, ?_, ?_⟩
  · rw [xyz_text_splitOn lib m0 hsym]; rfl
  · rw [List.length_map, List.enum_length]
  · intro line hline
    obtain ⟨p, hp', rfl⟩ := List.mem_map.mp hline
    exact ⟨p.2, _, _, _, mem_snd_of_mem_enum hp', rfl,
      fmt4_fourDecimal _, fmt4_fourDecimal _, fmt4_fourDecimal _⟩

theorem C5_witness :
    toyLib.MolFromSmiles "CC" = some toyMol ∧
    (∀ a ∈ (toyLib.AddHs toyMol).atoms, '\n' ∉ a) ∧
    (∃ txt body, smiles_to_xyz toyLib "CC" = some txt ∧
      txt.splitOn '\n' =
        natToStr (toyLib.AddHs toyMol).atoms.length :: commentLine :: body ∧
      parseNat (natToStr (toyLib.AddHs toyMol).atoms.length) =
        some (toyLib.AddHs toyMol).atoms.length ∧
      body.length = (toyLib.AddHs toyMol).atoms.length ∧
      ∀ line ∈ body, ∃ sym x y z, sym ∈ (toyLib.AddHs toyMol).atoms ∧
        line = sym ++ ' ' :: (fmt4 x ++ ' ' :: (fmt4 y ++ ' ' :: fmt4 z)) ∧
        fourDecimal (fmt4 x) ∧ fourDecimal (fmt4 y) ∧ fourDecimal (fmt4 z)) :=
  ⟨by decide, by decide,
    C5_xyz_text_format toyLib "CC" toyMol (by decide) (by decide)⟩

/-- Evaluate the coordinate-file re-parser once the line structure of the
text is known. -/
theorem parseXyz_of_splitOn {t : Str} {cnt cmt : Str} {rest : List Str}
    {n : Nat} (h : t.splitOn '\n' = cnt :: cmt :: rest)
    (hcnt : parseNat cnt = some n) (hlen : rest.length = n) :
    parseXyz t =
      some (n, rest.map (fun line => line.takeWhile (fun c => c != ' '))) := by
  unfold parseXyz
  rw [h]
  simp only [hcnt, hlen, if_true]

theorem takeWhile_append_stop {α : Type} (p : α → Bool) (l1 l2 : List α)
    (a : α) (h : ∀ c ∈ l1, p c = true) (ha : p a = false) :
    (l1 ++ a :: l2).takeWhile p = l1 := by
  induction l1 with
  | nil => simp [List.takeWhile_cons, ha]
  | cons x xs ih =>
    simp only [List.cons_append, List.takeWhile_cons,
      h x (List.mem_cons_self x xs), if_true, List.cons.injEq, true_and]
    exact ih (fun c hc => h c (List.mem_cons_of_mem x hc))

/-- C6: re-parsing the generated coordinate text as a coordinate file yields
the same atom count and the same element symbols, in order, as the
hydrogen-augmented molecule's atom list.  (`hsym`: element symbols contain
neither a newline nor a space.) -/
theorem C6_roundtrip (lib : RDKit) (s : String) (m0 : Mol)
    (hp : lib.MolFromSmiles s = some m0)
    (hsym : ∀ a ∈ (lib.AddHs m0).atoms, '\n' ∉ a ∧ ' ' ∉ a) :
    ∃ txt, smiles_to_xyz lib s = some txt ∧
      parseXyz txt = some ((lib.AddHs m0).atoms.length,
        (lib.AddHs m0).atoms) := by
  refine ⟨_, smiles_to_xyz_eq lib s m0 hp, ?_⟩
  have hsplit : (List.intercalate ['\n'] (xyzLines lib m0)).splitOn '\n' =
      natToStr (lib.AddHs m0).atoms.length :: commentLine ::
        (lib.AddHs m0).atoms.enum.map (fun p =>
          p.2 ++ ' ' :: (fmt4 (lib.pos (lib.AddHs m0) p.1).1 ++ ' ' ::
            (fmt4 (lib.pos (lib.AddHs m0) p.1).2.1 ++ ' ' ::
              fmt4 (lib.pos (lib.AddHs m0) p.1).2.2))) := by
    rw [xyz_text_splitOn lib m0 (fun a ha => (hsym a ha).1)]; rfl
  rw [parseXyz_of_splitOn hsplit (parseNat_natToStr _)
    (by rw [List.length_map, List.enum_length])]
  congr 1
  refine Prod.ext rfl ?_
  rw [List.map_map]
  conv_rhs => rw [← List.enum_map_snd (lib.AddHs m0).atoms]
  refine List.map_congr_left (fun p hp' => ?_)
  refine takeWhile_append_stop _ _ _ _ (fun c hc => ?_) (by simp)
  have hs := (hsym p.2 (mem_snd_of_mem_enum hp')).2
  simp only [bne_iff_ne, ne_eq, decide_eq_true_eq]
  intro hceq
  exact hs (hceq ▸ hc)

theorem C6_witness :
    toyLib.MolFromSmiles "CC" = some toyMol ∧
    (∀ a ∈ (toyLib.AddHs toyMol).atoms, '\n' ∉ a ∧ ' ' ∉ a) ∧
    (∃ txt, smiles_to_xyz toyLib "CC" = some txt ∧
      parseXyz txt = some ((toyLib.AddHs toyMol).atoms.length,
        (toyLib.AddHs toyMol).atoms)) :=
  ⟨by decide, by decide, C6_roundtrip toyLib "CC" toyMol (by decide) (by decide)⟩

/-! ### C7: the existence-lookup client's failure handling -/

/-- C7, counterexample to the claim as stated: a response with status 200
whose body is syntactically valid JSON of unexpected shape (a top-level
number) makes `check_molecule_in_pubchem` propagate an uncaught `TypeError`
(`"IdentifierList" in data` on a non-iterable) instead of returning a
boolean-false pair — so "never propagates an exception to its caller" is
false. -/
theorem C7_counterexample :
    check_molecule_in_pubchem (fun _ => .response 200 (some (.num 5))) "CC" =
      .error (.typeError "argument is not iterable") := by rfl

/-- C7, amended: for every network failure and every non-success HTTP status
(400-599) — in particular HTTP 500 — the existence-lookup client returns
boolean false together with a descriptive "API request failed" message and
propagates no exception.  (The original claim extended this to all JSON of
unexpected shape; the counterexample shows some shapes raise.) -/
theorem C7_failures_yield_false_and_message (net : HttpRequest → HttpOutcome)
    (smiles : String)
    (h : (∃ msg, net (pubchemReq smiles) = .netError msg) ∨
      (∃ status body, net (pubchemReq smiles) = .response status body ∧
        400 ≤ status ∧ status < 600)) :
    ∃ m, check_molecule_in_pubchem net smiles =
      .ok (false, "API request failed: " ++ m) := by
  rcases h with ⟨msg, hmsg⟩ | ⟨status, body, hresp, h4, h6⟩
  · exact ⟨msg, by
      unfold check_molecule_in_pubchem pubchemTryBody
      rw [hmsg]⟩
  · refine ⟨"HTTP error " ++ toString status, ?_⟩
    unfold check_molecule_in_pubchem pubchemTryBody
    rw [hresp]
    simp only [raiseForStatus, if_pos (And.intro h4 h6)]
    rfl

theorem C7_witness :
    ((∃ msg, net500 (pubchemReq "CC") = .netError msg) ∨
      (∃ status body, net500 (pubchemReq "CC") = .response status body ∧
        400 ≤ status ∧ status < 600)) ∧
    (∃ m, check_molecule_in_pubchem net500 "CC" =
      .ok (false, "API request failed: " ++ m)) :=
  ⟨Or.inr ⟨500, some (.obj []), rfl, by norm_num, by norm_num⟩,
    C7_failures_yield_false_and_message net500 "CC"
      (Or.inr ⟨500, some (.obj []), rfl, by norm_num, by norm_num⟩)⟩

/-! ### C8: which external lookups a render pass actually invokes -/

/-- C8, counterexample to the claim as stated: in a Loaded state (gate
true), a render pass issues only the PubChem existence GET; no POST to the
toxicity endpoint is ever issued — `predict_toxicity` is defined but never
called, a placeholder line is written instead.  So "every render pass
invokes both external lookups" is false. -/
theorem C8_counterexample :
    gate toyState = true ∧
    (renderPass toyLib toyNet toyState .stick).requests =
      [pubchemReq "CC"] ∧
    HttpRequest.post toxUrl [("smiles", "CC")] ∉
      (renderPass toyLib toyNet toyState .stick).requests := by
  refine ⟨by decide, by decide, by decide⟩

/-- C8, amended: in the Loaded state every render pass invokes exactly one
external lookup, the PubChem existence GET keyed by the session SMILES; the
toxicity lookup is never invoked (no POST is issued), and the pass writes
the "coming soon" placeholder instead. -/
theorem C8_render_invokes_only_pubchem (lib : RDKit)
    (net : HttpRequest → HttpOutcome) (st : SessionState) (style : VisStyle)
    (m : Mol) (hg : gate st = true)
    (hm : lib.MolFromSmiles st.smiles = some m) :
    (renderPass lib net st style).requests = [pubchemReq st.smiles] ∧
    (∀ u b, HttpRequest.post u b ∉ (renderPass lib net st style).requests) ∧
    UIOutput.writeText "Toxicity predictions: coming soon" ∈
      (renderPass lib net st style).outputs := by
  unfold renderPass
  rw [hg, hm]
  simp only [if_true]
  cases hc : check_molecule_in_pubchem net st.smiles with
  | ok r =>
    obtain ⟨b, msg⟩ := r
    cases b <;> simp [List.mem_append, List.mem_cons, pubchemReq]
  | error e => simp [List.mem_append, List.mem_cons, pubchemReq]

theorem C8_witness :
    gate toyState = true ∧
    toyLib.MolFromSmiles toyState.smiles = some toyMol ∧
    ((renderPass toyLib toyNet toyState .spacefill).requests =
        [pubchemReq toyState.smiles] ∧
      (∀ u b, HttpRequest.post u b ∉
        (renderPass toyLib toyNet toyState .spacefill).requests) ∧
      UIOutput.writeText "Toxicity predictions: coming soon" ∈
        (renderPass toyLib toyNet toyState .spacefill).outputs) :=
  ⟨by decide, by decide,
    C8_render_invokes_only_pubchem toyLib toyNet toyState .spacefill toyMol
      (by decide) (by decide)⟩

/-! ### C9: the display style is a pure display parameter -/

/-- C9: two render passes over the same state and network that differ only
in the selected display style emit the same outputs except for the style
argument of the 3D viewer — in particular the same download (coordinate
text) data, the same descriptor and drug-likeness tables, the same HTTP
requests, and the same halting behaviour.  (The render pass never writes
the session fields at all, so the session-held coordinate text is
untouched by construction.) -/
theorem C9_style_is_display_only (lib : RDKit)
    (net : HttpRequest → HttpOutcome) (st : SessionState)
    (s1 s2 : VisStyle) :
    (renderPass lib net st s1).outputs.map eraseStyle =
      (renderPass lib net st s2).outputs.map eraseStyle ∧
    (renderPass lib net st s1).outputs.filterMap downloadData =
      (renderPass lib net st s2).outputs.filterMap downloadData ∧
    (renderPass lib net st s1).outputs.filterMap tableRows =
      (renderPass lib net st s2).outputs.filterMap tableRows ∧
    (renderPass lib net st s1).requests =
      (renderPass lib net st s2).requests ∧
    (renderPass lib net st s1).halted = (renderPass lib net st s2).halted := by
  unfold renderPass
  cases hg : gate st
  · simp
  · cases hm : lib.MolFromSmiles st.smiles with
    | none => simp
    | some m =>
      simp only [if_true]
      cases hc : check_molecule_in_pubchem net st.smiles with
      | ok r =>
        obtain ⟨b, msg⟩ := r
        cases b <;> simp [eraseStyle, downloadData, tableRows]
      | error e => simp [eraseStyle, downloadData, tableRows]

/-! ### C10: downstream outputs are produced exactly behind the gate -/

/-- In a Loaded state whose SMILES parses, the render pass is this explicit
widget list, one GET request, and a halt only when the PubChem check raised. -/
theorem renderPass_loaded (lib : RDKit) (net : HttpRequest → HttpOutcome)
    (st : SessionState) (style : VisStyle) (m : Mol) (xyzv : Str)
    (props lip : List (String × PyVal))
    (hg : gate st = true) (hm : lib.MolFromSmiles st.smiles = some m)
    (hO : st.xyz_content = some xyzv)
    (hcp : calculate_properties lib st.smiles = some props)
    (hdl : evaluate_drug_likeness lib st.smiles = some lip) :
    renderPass lib net st style =
      { outputs := [.subheader "2D Structure", .image2D,
          .subheader "3D Structure", .viewer3D xyzv (styleSpec style),
          .downloadButton xyzv "molecule.xyz" "text/plain",
          .subheader "Molecular Properties", .table props,
          .subheader "Drug-Likeness (Lipinski's Rule of Five)", .table lip,
          .writeText "Toxicity predictions: coming soon",
          .subheader "Pubchem Check"] ++
          (match check_molecule_in_pubchem net st.smiles with
           | .ok (true, msg) => [.successMsg msg]
           | .ok (false, msg) => [.errorMsg msg]
           | .error _ => []),
        requests := [pubchemReq st.smiles],
        halted := match check_molecule_in_pubchem net st.smiles with
          | .ok _ => none
          | .error e => some e } := by
  unfold renderPass
  rw [hg, hm, hO, hcp, hdl]
  simp only [if_true, Option.getD_some]
  cases hc : check_molecule_in_pubchem net st.smiles with
  | ok r =>
    obtain ⟨b, msg⟩ := r
    cases b <;> simp
  | error e => simp

/-- C10: the gated section produces its downstream outputs exactly when both
session fields are truthy.  At any state where the gate fails (empty
SMILES, or absent/empty coordinate text) the pass emits no widget, no error
message and no request; at every reachable state where it holds, the
SMILES parses, and the
pass emits the 2D image, the 3D viewer fed the stored coordinate text, the
download button with that text, the descriptor table, the drug-likeness
table, issues the PubChem lookup, and shows its success/error message when
the lookup returns. -/
theorem C10_outputs_iff_gate (lib : RDKit) (net : HttpRequest → HttpOutcome)
    (st : SessionState) (style : VisStyle) :
    (gate st = false →
      renderPass lib net st style =
        { outputs := [], requests := [], halted := none }) ∧
    (Reachable lib st → gate st = true →
      ∃ m xyzv props lip,
        lib.MolFromSmiles st.smiles = some m ∧
        st.xyz_content = some xyzv ∧
        calculate_properties lib st.smiles = some props ∧
        evaluate_drug_likeness lib st.smiles = some lip ∧
        UIOutput.image2D ∈ (renderPass lib net st style).outputs ∧
        UIOutput.viewer3D xyzv (styleSpec style) ∈
          (renderPass lib net st style).outputs ∧
        UIOutput.downloadButton xyzv "molecule.xyz" "text/plain" ∈
          (renderPass lib net st style).outputs ∧
        UIOutput.table props ∈ (renderPass lib net st style).outputs ∧
        UIOutput.table lip ∈ (renderPass lib net st style).outputs ∧
        (renderPass lib net st style).requests = [pubchemReq st.smiles] ∧
        ∀ b msg, check_molecule_in_pubchem net st.smiles = .ok (b, msg) →
          (b = true →
            UIOutput.successMsg msg ∈ (renderPass lib net st style).outputs) ∧
          (b = false →
            UIOutput.errorMsg msg ∈ (renderPass lib net st style).outputs)) := by
  constructor
  · intro hg
    unfold renderPass
    rw [hg]
    simp
  · intro hr hg
    rcases reachable_inv lib st hr with ⟨hs, _⟩ | ⟨⟨m, hm⟩, _, hne⟩
    · exact absurd hg (by simp [gate, hs])
    · rcases hO : st.xyz_content with _ | xyzv
      · exact absurd hO hne
      obtain ⟨props, hcp⟩ : ∃ props,
          calculate_properties lib st.smiles = some props := by
        unfold calculate_properties; rw [hm]; exact ⟨_, rfl⟩
      obtain ⟨lip, hdl⟩ : ∃ lip,
          evaluate_drug_likeness lib st.smiles = some lip := by
        unfold evaluate_drug_likeness; rw [hm]; exact ⟨_, rfl⟩
      have hrender := renderPass_loaded lib net st style m xyzv props lip
        hg hm hO hcp hdl
      refine ⟨m, xyzv, _, _, hm, rfl, hcp, hdl, ?_, ?_, ?_, ?_, ?_, ?_, ?_⟩
      · rw [hrender]; simp
      · rw [hrender]; simp
      · rw [hrender]; simp
      · rw [hrender]; simp
      · rw [hrender]; simp
      · rw [hrender]
      · intro b msg hbm
        constructor
        · rintro rfl
          rw [hrender]
          simp [hbm]
        · rintro rfl
          rw [hrender]
          simp [hbm]

theorem loadedState_eq : loadedState =
    { smiles := "CC", xyz_content :=
        some (List.intercalate ['\n'] (xyzLines toyLib toyMol)) } := by
  unfold loadedState visualize
  rw [show toyLib.MolFromSmiles "CC" = some toyMol from by decide,
    smiles_to_xyz_eq toyLib "CC" toyMol (by decide)]

theorem gate_loadedState : gate loadedState = true := by
  have hne : List.intercalate ['\n'] (xyzLines toyLib toyMol) ≠ [] := by
    intro h0
    have hts := xyz_text_splitOn toyLib toyMol (by decide)
    rw [h0, List.splitOn_nil] at hts
    have hlen := congrArg List.length hts
    exact absurd hlen (by decide)
  rw [loadedState_eq]
  unfold gate
  simp [hne]

theorem C10_witness :
    (renderPass toyLib toyNet { smiles := "CC", xyz_content := none } .stick =
      { outputs := [], requests := [], halted := none }) ∧
    (∃ m xyzv props lip,
        toyLib.MolFromSmiles loadedState.smiles = some m ∧
        loadedState.xyz_content = some xyzv ∧
        calculate_properties toyLib loadedState.smiles = some props ∧
        evaluate_drug_likeness toyLib loadedState.smiles = some lip ∧
        UIOutput.image2D ∈
          (renderPass toyLib toyNet loadedState .stick).outputs ∧
        UIOutput.viewer3D xyzv (styleSpec .stick) ∈
          (renderPass toyLib toyNet loadedState .stick).outputs ∧
        UIOutput.downloadButton xyzv "molecule.xyz" "text/plain" ∈
          (renderPass toyLib toyNet loadedState .stick).outputs ∧
        UIOutput.table props ∈
          (renderPass toyLib toyNet loadedState .stick).outputs ∧
        UIOutput.table lip ∈
          (renderPass toyLib toyNet loadedState .stick).outputs ∧
        (renderPass toyLib toyNet loadedState .stick).requests =
          [pubchemReq loadedState.smiles] ∧
        ∀ b msg,
          check_molecule_in_pubchem toyNet loadedState.smiles = .ok (b, msg) →
          (b = true → UIOutput.successMsg msg ∈
            (renderPass toyLib toyNet loadedState .stick).outputs) ∧
          (b = false → UIOutput.errorMsg msg ∈
            (renderPass toyLib toyNet loadedState .stick).outputs)) :=
  ⟨(C10_outputs_iff_gate toyLib toyNet
      { smiles := "CC", xyz_content := none } .stick).1 (by decide),
    (C10_outputs_iff_gate toyLib toyNet loadedState .stick).2
      (Reachable.step initialState "CC" Reachable.init) gate_loadedState⟩

end SmilesViz
